import Mathlib

set_option linter.unusedVariables false

/-! Shallow embedding of the slack-b backend relay.

The repository has three source files: `src/index.js` (which holds two
concatenated iterations of the Express server — a MongoDB-backed one and a
cookie-only one), an unnamed cookie-only server variant (`unnamed/part_000`),
and the Slack client helpers (`unnamed/part_001`, i.e. `slackClient.js`).

Handlers are embedded as total functions.  Remote-call outcomes (the OAuth
token endpoint, `auth.test`, `users.info`, `conversations.history`) are inputs
to the handler functions, and each handler result records the effects the
handler performed: whether the remote endpoint was called, which cookies were
set or cleared, and the resulting credential store. -/

/-- JS truthiness of a string-or-undefined value (`undefined` and `""` are falsy). -/
def truthyS : Option String → Bool
  | none => false
  | some s => !s.isEmpty

/-- JS `a || b` where `a` is a string-or-undefined and `b` a string. -/
def jsOr (a : Option String) (b : String) : String :=
  match a with
  | some s => if s.isEmpty then b else s
  | none => b

/-- JS coercion performed by `res.cookie(name, v)` on a missing value:
`String(undefined) = "undefined"`. -/
def jsCookieVal : Option String → String
  | some s => s
  | none => "undefined"

/-! ## slackClient.js (`unnamed/part_001`) -/

/-- 120 days in seconds: the scheduling bound `120 * 24 * 60 * 60`. -/
def SCHEDULE_WINDOW : Int := 120 * 24 * 60 * 60

/-- Observable outcome of `sendMessage` in `slackClient.js`: a delegation to
`chat.scheduleMessage` or `chat.postMessage`, or a thrown `Error` with the
given message.  (The local validation errors keep their message through the
surrounding catch block, because `error.data` is absent and `error.message`
is non-empty, so `error.data?.error || error.message || ...` yields the
original message.) -/
inductive SendResult
  | scheduleCall (channel text : String) (postAt : Int)
  | postCall (channel text : String)
  | threw (msg : String)
deriving DecidableEq

/-- `sendMessage(channel, text, postAt, token)` from `slackClient.js`.
`const timestamp = postAt ? Number(postAt) : null` is modelled on
`Option Int`: a present numeric `0` is falsy and becomes `null` (`NaN` is
likewise falsy and is mapped to `none` at the caller, see `apiTimestamp`).
`now = Math.floor(Date.now() / 1000)` is an explicit input. -/
def sendMessage (channel text : String) (postAt : Option Int) (now : Int) : SendResult :=
  let timestamp : Option Int :=
    match postAt with
    | some t => if t == 0 then none else some t
    | none => none
  match timestamp with
  | some t =>
    if t ≤ now then .threw "Scheduled time must be in the future"
    else if now + SCHEDULE_WINDOW < t then .threw "Cannot schedule beyond 120 days"
    else .scheduleCall channel text t
  | none => .postCall channel text

/-- A JSON body value for `postAt` as received by `POST /api/messages`. -/
inductive JVal
  | num (n : Int)
  | str (s : String)
  | null
deriving DecidableEq

/-- JS truthiness of a `JVal` (`0`, `""` and `null` are falsy). -/
def jTruthy : JVal → Bool
  | .num n => n != 0
  | .str s => !s.isEmpty
  | .null => false

/-- Decimal value of a digit character, `none` otherwise. -/
def digitVal (c : Char) : Option Nat :=
  if c.isDigit then some (c.toNat - 48) else none

/-- Parse an unsigned decimal-digit character list, `none` on any non-digit. -/
def parseDecimal : List Char → Nat → Option Nat
  | [], acc => some acc
  | c :: cs, acc =>
    match digitVal c with
    | some d => parseDecimal cs (acc * 10 + d)
    | none => none

/-- JS `Number(v)` on the values of interest; `none` stands for `NaN`.
String coercion is modelled on unsigned decimal-integer strings (the shape a
numeric `postAt` takes in a JSON body); anything else is `NaN`. -/
def jToNumber : JVal → Option Int
  | .num n => some n
  | .str s => (parseDecimal s.data 0).map Int.ofNat
  | .null => some 0

/-- `const timestamp = postAt ? Number(postAt) : null` in `POST /api/messages`
(`src/index.js`).  `NaN` is mapped to `none`, which the `if (timestamp)` guard
inside `sendMessage` treats exactly like `null`. -/
def apiTimestamp (postAt : JVal) : Option Int :=
  if jTruthy postAt then jToNumber postAt else none

/-- A message from `conversations.history`; `ts` is its decimal-seconds
timestamp (the parsed value of the `ts` string); the rest of the payload is
abstracted as `text`. -/
structure SlackMsg where
  ts : Rat
  text : String := ""
deriving DecidableEq

/-- A history message after annotation: the spread message plus `humanTime`.
`humanTime = new Date(parseFloat(msg.ts) * 1000).toISOString()` is modelled by
the instant it denotes, in milliseconds since the epoch (`toISOString` is an
injective rendering of that instant). -/
structure AnnotatedMsg where
  msg : SlackMsg
  humanTimeMs : Rat
deriving DecidableEq

/-- The per-message annotation performed by `getMessages`. -/
def annotate (m : SlackMsg) : AnnotatedMsg :=
  ⟨m, m.ts * 1000⟩

/-- The `try` body of `getMessages` in `slackClient.js`, applied to the
`messages` field of a (transport-successful) `conversations.history` response:
`if (!response.messages || response.messages.length === 0)` throws
`"No messages found"`, else each message is annotated. -/
def getMessagesCore (messages : Option (List SlackMsg)) : Except String (List AnnotatedMsg) :=
  match messages with
  | none => .error "No messages found"
  | some ms =>
    if ms.length = 0 then .error "No messages found"
    else .ok (ms.map annotate)

/-- `getMessages` as observed by callers: the catch block rethrows
`error.data?.error || "Failed to retrieve messages"`, and a locally thrown
`Error` carries no `data`, so the local not-found failure surfaces with the
generic message. -/
def getMessages (messages : Option (List SlackMsg)) : Except String (List AnnotatedMsg) :=
  match getMessagesCore messages with
  | .error _ => .error "Failed to retrieve messages"
  | .ok v => .ok v

/-! ## Credential store (`models/Token.js` documents as used by `src/index.js`) -/

/-- A persisted credential record. (`createdAt` only feeds the store-level
30-day TTL, which no claim exercises, so it is omitted.) -/
structure TokenRecord where
  userId : String
  teamId : String
  accessToken : String
deriving DecidableEq

/-- `Token.findOneAndUpdate({ userId, teamId }, { accessToken }, { upsert: true })`:
updates the first document matching both `userId` and `teamId`, else inserts a
new one.  The store is a list in insertion (natural) order. -/
def putToken : List TokenRecord → String → String → String → List TokenRecord
  | [], u, t, a => [⟨u, t, a⟩]
  | r :: rs, u, t, a =>
    if r.userId == u && r.teamId == t then { r with accessToken := a } :: rs
    else r :: putToken rs u t a

/-- `Token.findOne({ userId })`: the first record in natural order whose
`userId` matches. -/
def getToken : List TokenRecord → String → Option TokenRecord
  | [], _ => none
  | r :: rs, u => if r.userId == u then some r else getToken rs u

/-! ## OAuth callback handlers -/

structure AuthedUser where
  id : String
deriving DecidableEq

structure OAuthTeam where
  id : String
deriving DecidableEq

/-- Body of a transport-successful `oauth.v2.access` response. -/
structure OAuthResponseData where
  ok : Bool
  access_token : Option String := none
  authed_user : Option AuthedUser := none
  team : Option OAuthTeam := none
  error : Option String := none
deriving DecidableEq

/-- Outcome of the `axios.post` to the token endpoint: a 2xx response with a
body, or a thrown transport error carrying `error.response?.data?.error`. -/
inductive ExchangeOutcome
  | response (d : OAuthResponseData)
  | transportFailure (remoteErr : Option String)
deriving DecidableEq

/-- The success condition of the Mongo-backed callback's validation, i.e. the
negation of `!response.data.ok || !access_token || !authed_user || !team`
(`src/index.js` line 226). -/
def validExchangeData (d : OAuthResponseData) : Bool :=
  d.ok && truthyS d.access_token && d.authed_user.isSome && d.team.isSome

/-- Result of the Mongo-backed `GET /auth/slack/callback` (first iteration in
`src/index.js`): every response is a redirect; `remoteCalled` records whether
the token endpoint was invoked; `store` is the credential store afterwards.
This handler sets no cookies. -/
structure CallbackMongoResult where
  redirectTo : String
  remoteCalled : Bool
  store : List TokenRecord
deriving DecidableEq

/-- The Mongo-backed `GET /auth/slack/callback` (`src/index.js` lines 203-244).
Note that it reads `state` from the query but never verifies it: there is no
stored-nonce comparison in this variant.  The DB write is modelled as always
succeeding (a write failure would land in the catch, i.e. `server_error`). -/
def callbackMongo (frontend : String) (code state : Option String)
    (exchange : ExchangeOutcome) (store : List TokenRecord) : CallbackMongoResult :=
  if !(truthyS code) then ⟨frontend ++ "/?auth_error=missing_code", false, store⟩
  else
    match exchange with
    | .transportFailure _ => ⟨frontend ++ "/?auth_error=server_error", true, store⟩
    | .response d =>
      match d.access_token, d.authed_user, d.team with
      | some tok, some au, some tm =>
        if d.ok && !tok.isEmpty then
          ⟨frontend ++ "/?auth_success=1&user_id=" ++ au.id, true,
            putToken store au.id tm.id tok⟩
        else ⟨frontend ++ "/?auth_error=invalid_response", true, store⟩
      | _, _, _ => ⟨frontend ++ "/?auth_error=invalid_response", true, store⟩

/-- Response of the cookie-based callbacks: `res.status(400).send(body)` or a
redirect. -/
inductive CallbackResp
  | badRequest (body : String)
  | redirect (location : String)
deriving DecidableEq

/-- Result of a cookie-based `GET /auth/slack/callback`: the response, whether
the token endpoint was invoked, the raw value written to the
`slack_access_token` cookie (if any), and whether the `slack_auth_state`
cookie was cleared. -/
structure CookieCallbackResult where
  response : CallbackResp
  remoteCalled : Bool
  accessCookieSet : Option String
  stateCookieCleared : Bool
deriving DecidableEq

/-- `!storedState || storedState !== state`: the rejection condition of the
state-verifying callbacks (`undefined` and `""` stored values are falsy; the
strict comparison also fails when the presented `state` is absent). -/
def nonceRejects (stored presented : Option String) : Bool :=
  !(truthyS stored) || stored != presented

/-- `GET /auth/slack/callback` of `unnamed/part_000` (lines 147-224).
On a state mismatch it responds 400 before calling the token endpoint.  On a
response with `ok: false` it redirects with `auth_error=1`.  On success it
sets the access-token cookie (to `response.data.access_token`, coerced the way
`res.cookie` coerces a missing value), clears the state cookie, and redirects
with `auth_success=1`.  A transport failure redirects with
`auth_error=1&reason=<error.response?.data?.error || "unknown">` (the URI
encoding of the reason is not modelled; it is the identity on the
alphanumeric+underscore error codes the remote emits). -/
def callbackCookie (frontend : String) (state storedState : Option String)
    (exchange : ExchangeOutcome) : CookieCallbackResult :=
  if nonceRejects storedState state then
    ⟨.badRequest "Invalid state parameter", false, none, false⟩
  else
    match exchange with
    | .response d =>
      if !d.ok then ⟨.redirect (frontend ++ "/?auth_error=1"), true, none, false⟩
      else ⟨.redirect (frontend ++ "/?auth_success=1"), true,
        some (jsCookieVal d.access_token), true⟩
    | .transportFailure err =>
      ⟨.redirect (frontend ++ "/?auth_error=1&reason=" ++ jsOr err "unknown"), true, none, false⟩

/-- `GET /auth/slack/callback` of the second iteration in `src/index.js`
(lines 480-523).  After the state check it performs no validation of the
exchange response at all: it unconditionally writes the access-token cookie
and redirects with `auth_success=1`; only a thrown transport error redirects
with `auth_error=1`.  The state cookie is never cleared in this variant. -/
def callbackCookieV2 (frontend : String) (state storedState : Option String)
    (exchange : ExchangeOutcome) : CookieCallbackResult :=
  if nonceRejects storedState state then
    ⟨.badRequest "Invalid state parameter", false, none, false⟩
  else
    match exchange with
    | .response d =>
      ⟨.redirect (frontend ++ "/?auth_success=1"), true,
        some (jsCookieVal d.access_token), false⟩
    | .transportFailure _ =>
      ⟨.redirect (frontend ++ "/?auth_error=1"), true, none, false⟩

/-! ## Credential resolver (`req.cookies.slack_access_token || SLACK_BOT_TOKEN`) -/

/-- The credential resolution performed at the top of every `/api/messages`
handler (`src/index.js` line 277, `unnamed/part_000` line 253): the
side-channel cookie if truthy, else the statically configured bot token
(which may itself be the empty string when unconfigured). -/
def resolveToken (cookieToken : Option String) (fallback : String) : String :=
  match cookieToken with
  | some c => if c.isEmpty then fallback else c
  | none => fallback

/-! ## Session introspection (`GET /auth/status`) -/

/-- Result of the Slack `auth.test` identity check as seen by the handlers.
`user` carries the `user` (name) field, `error` the remote error code of a
non-throwing `ok: false` body (only the Mongo-backed handler inspects it). -/
structure AuthTestData where
  ok : Bool := true
  user_id : String := ""
  user : String := ""
  team : String := ""
  error : Option String := none
deriving DecidableEq

/-- The `user` object of a `users.info` profile response. -/
structure SlackProfile where
  real_name : Option String := none
  name : String := ""
  image_512 : Option String := none
  image_192 : Option String := none
deriving DecidableEq

/-- Response body of an `/auth/status` handler. -/
inductive StatusBody
  | unauthenticated
  | unauthenticatedErr (error : String) (details : Option String)
  | authenticatedUser (id name team image : String)
deriving DecidableEq

/-- `authenticated: true` flag of a status body. -/
def bodyAuthenticatedFlag : StatusBody → Bool
  | .authenticatedUser _ _ _ _ => true
  | _ => false

/-- Result of a cookie-based `/auth/status` handler: the body, whether the
`slack_access_token` cookie was cleared, and whether any remote call was
made. -/
structure CookieStatusResult where
  body : StatusBody
  clearedAccessCookie : Bool
  remoteCalled : Bool
deriving DecidableEq

/-- `GET /auth/status` of `unnamed/part_000` (lines 73-119).  No cookie means
`{authenticated: false}` with no remote call.  The SDK throws on a failed
`auth.test`, landing in the catch, which clears the cookie and responds
unauthenticated; a thrown `users.info` lands in the same catch. -/
def authStatusCookie (cookieToken : Option String)
    (identity : Except String AuthTestData)
    (profile : Except String SlackProfile) : CookieStatusResult :=
  if !(truthyS cookieToken) then ⟨.unauthenticated, false, false⟩
  else
    match identity with
    | .error _ => ⟨.unauthenticated, true, true⟩
    | .ok a =>
      match profile with
      | .error _ => ⟨.unauthenticated, true, true⟩
      | .ok p =>
        ⟨.authenticatedUser a.user_id (jsOr p.real_name p.name) a.team
          (jsOr p.image_512 (jsOr p.image_192
            ("https://avatars.slack-edge.com/" ++ a.user_id))), false, true⟩

/-- `GET /auth/status` of the second iteration in `src/index.js`
(lines 430-454): like `authStatusCookie` but with no secondary profile call
and a fixed avatar URL scheme. -/
def authStatusCookieV2 (cookieToken : Option String)
    (identity : Except String AuthTestData) : CookieStatusResult :=
  if !(truthyS cookieToken) then ⟨.unauthenticated, false, false⟩
  else
    match identity with
    | .error _ => ⟨.unauthenticated, true, true⟩
    | .ok a =>
      ⟨.authenticatedUser a.user_id a.user a.team
        ("https://avatars.slack-edge.com/" ++ a.user_id), false, true⟩

/-- Result of the Mongo-backed `/auth/status`: HTTP status, body, whether any
remote call was made, and the credential store afterwards. -/
structure MongoStatusResult where
  status : Nat
  body : StatusBody
  remoteCalled : Bool
  store : List TokenRecord
deriving DecidableEq

/-- `GET /auth/status` of the first iteration in `src/index.js`
(lines 102-180).  The session is identified by the `userId` query parameter
and the credential is looked up in the store; a missing/empty `userId` is a
400; a missing record or empty stored token is an unauthenticated 200; an
`ok: false` `auth.test` body is an unauthenticated 200; a thrown `auth.test`
or `users.info` lands in the catch, a 500 — in no branch is anything cleared
or deleted. -/
def authStatusMongo (userId : Option String) (store : List TokenRecord)
    (identity : Except String AuthTestData)
    (profile : Except String SlackProfile) : MongoStatusResult :=
  match userId with
  | none =>
    ⟨400, .unauthenticatedErr "Missing userId"
      (some "No userId parameter provided in request"), false, store⟩
  | some u =>
    if u.isEmpty then
      ⟨400, .unauthenticatedErr "Missing userId"
        (some "No userId parameter provided in request"), false, store⟩
    else
      match getToken store u with
      | none =>
        ⟨200, .unauthenticatedErr "No token found"
          (some "No token record exists for this user"), false, store⟩
      | some entry =>
        if entry.accessToken.isEmpty then
          ⟨200, .unauthenticatedErr "Invalid token"
            (some "Token record exists but accessToken is empty"), false, store⟩
        else
          match identity with
          | .error msg =>
            ⟨500, .unauthenticatedErr "Token validation failed" (some msg), true, store⟩
          | .ok a =>
            if !a.ok then
              ⟨200, .unauthenticatedErr "Slack API authentication failed" a.error, true, store⟩
            else
              match profile with
              | .error msg =>
                ⟨500, .unauthenticatedErr "Token validation failed" (some msg), true, store⟩
              | .ok p =>
                ⟨200, .authenticatedUser a.user_id (jsOr p.real_name p.name) a.team
                  (jsOr p.image_512 (jsOr p.image_192 "")), true, store⟩

/-! ## Theorems -/

/-- C3 counterexample: two `put`s with the same `userId` but different
`teamId`s (the upsert filter is `{userId, teamId}`) leave two live records for
that `userId`, and `get(userId)` returns the first — i.e. the old — token. -/
theorem token_upsert_counterexample :
    getToken (putToken (putToken [] "U1" "T1" "tokA") "U1" "T2" "tokB") "U1"
        = some ⟨"U1", "T1", "tokA"⟩
    ∧ ((putToken (putToken [] "U1" "T1" "tokA") "U1" "T2" "tokB").filter
        (fun r => r.userId == "U1")).length = 2 := by
  decide

/-- C3 (amended): the store upserts per `(userId, teamId)` pair, not per
`userId`.  For a user with no prior records, two `put`s with the same
`userId` and `teamId` leave exactly one live record for that user, and
`get(userId)` returns the most recently written token. -/
theorem token_upsert_amended :
    ∀ (store : List TokenRecord) (u t a₁ a₂ : String),
      (∀ r ∈ store, r.userId ≠ u) →
      getToken (putToken (putToken store u t a₁) u t a₂) u = some ⟨u, t, a₂⟩
      ∧ ((putToken (putToken store u t a₁) u t a₂).filter
          (fun r => r.userId == u)).length = 1 := by
  intro store u t a₁ a₂ h
  induction store with
  | nil => simp [putToken, getToken]
  | cons r rs ih =>
    have hr : r.userId ≠ u := h r (by simp)
    have hrs : ∀ x ∈ rs, x.userId ≠ u := fun x hx => h x (by simp [hx])
    have hb : (r.userId == u) = false := by simp [hr]
    simpa [putToken, getToken, hb] using ih hrs

/-- C3 witness: an instantiation of the amended upsert theorem. -/
theorem token_upsert_amended_witness :
    getToken (putToken (putToken [⟨"X", "T0", "z"⟩] "U1" "T1" "a1") "U1" "T1" "a2") "U1"
      = some ⟨"U1", "T1", "a2"⟩ :=
  (token_upsert_amended [⟨"X", "T0", "z"⟩] "U1" "T1" "a1" "a2" (by decide)).1

/-- C4: for a present (truthy) scheduled timestamp, `sendMessage` throws the
past-schedule error when `t ≤ now`, throws the too-far error when
`t > now + 120 days`, and accepts the boundary `t = now + 120 days`,
delegating it to `chat.scheduleMessage` — the upper bound is strict.
Presence is the code's truthiness test, so `t ≠ 0` (the zero case is the
subject of C10). -/
theorem sendMessage_schedule_window_spec :
    ∀ (channel text : String) (t now : Int),
      0 ≤ now → t ≠ 0 →
      (t ≤ now →
        sendMessage channel text (some t) now = .threw "Scheduled time must be in the future")
      ∧ (now + SCHEDULE_WINDOW < t →
        sendMessage channel text (some t) now = .threw "Cannot schedule beyond 120 days")
      ∧ sendMessage channel text (some (now + SCHEDULE_WINDOW)) now
          = .scheduleCall channel text (now + SCHEDULE_WINDOW) := by
  intro channel text t now hnow ht
  have hw : (0 : Int) < SCHEDULE_WINDOW := by norm_num [SCHEDULE_WINDOW]
  have ht' : (t == 0) = false := by simp [ht]
  refine ⟨?_, ?_, ?_⟩
  · intro hle
    simp [sendMessage, ht', hle]
  · intro hgt
    have hnle : ¬t ≤ now := by omega
    simp [sendMessage, ht', hnle, hgt]
  · have h0 : (now + SCHEDULE_WINDOW == 0) = false := by
      simp only [beq_eq_false_iff_ne, ne_eq]
      omega
    have h1 : ¬now + SCHEDULE_WINDOW ≤ now := by omega
    have h2 : ¬now + SCHEDULE_WINDOW < now + SCHEDULE_WINDOW := lt_irrefl _
    simp [sendMessage, h0, h1, h2]

/-- C4 witness: a past timestamp is rejected with the past-schedule error. -/
theorem sendMessage_schedule_window_spec_witness :
    (0 : Int) ≤ 1000 ∧ (5 : Int) ≠ 0
    ∧ sendMessage "C1" "hello" (some 5) 1000 = .threw "Scheduled time must be in the future" :=
  ⟨by decide, by decide,
    (sendMessage_schedule_window_spec "C1" "hello" 5 1000 (by decide) (by decide)).1 (by decide)⟩

/-- C10: a `postAt` whose numeric value is `0` (numeric `0` or string `"0"`)
is falsy at both truthiness tests, so the scheduling branch — including the
past-schedule and 120-day checks — is skipped and the message is posted
immediately via `chat.postMessage`, for every current time `now`. -/
theorem postAt_zero_immediate :
    ∀ (channel text : String) (now : Int),
      apiTimestamp (.num 0) = none
      ∧ apiTimestamp (.str "0") = some 0
      ∧ sendMessage channel text (apiTimestamp (.num 0)) now = .postCall channel text
      ∧ sendMessage channel text (apiTimestamp (.str "0")) now = .postCall channel text := by
  intro channel text now
  have h : apiTimestamp (.str "0") = some 0 := by decide
  refine ⟨rfl, h, rfl, ?_⟩
  rw [h]
  rfl

/-- C6: credential resolution for `/api/messages` returns the non-empty
side-channel token when one is carried, otherwise the configured fallback
token; it is a total function, so it always yields a value and never
throws. -/
theorem resolveToken_spec :
    ∀ (c : Option String) (fb : String),
      (∀ s, c = some s → s ≠ "" → resolveToken c fb = s)
      ∧ ((c = none ∨ c = some "") → resolveToken c fb = fb)
      ∧ ∃ v, resolveToken c fb = v := by
  intro c fb
  refine ⟨?_, ?_, ⟨resolveToken c fb, rfl⟩⟩
  · intro s hs hne
    subst hs
    have h : s.isEmpty = false := by
      rw [Bool.eq_false_iff]
      intro he
      exact hne ((String.isEmpty_iff s).mp he)
    simp [resolveToken, h]
  · rintro (rfl | rfl) <;> rfl

/-- C6 witness: resolution with and without a side-channel token. -/
theorem resolveToken_spec_witness :
    resolveToken (some "xoxp-user") "xoxb-bot" = "xoxp-user"
    ∧ resolveToken none "xoxb-bot" = "xoxb-bot" :=
  ⟨(resolveToken_spec (some "xoxp-user") "xoxb-bot").1 "xoxp-user" rfl (by decide),
    (resolveToken_spec none "xoxb-bot").2.1 (Or.inl rfl)⟩

/-- C9: an empty (or absent) message list from `conversations.history` makes
`getMessages` fail — the try-body raises the not-found error
`"No messages found"`, which the catch surfaces as the generic retrieval
failure — never an empty success; a non-empty list succeeds with every
message annotated with the derived instant `ts * 1000` milliseconds since the
epoch. -/
theorem getMessages_empty_and_derived_time :
    ∀ (messages : Option (List SlackMsg)),
      ((messages = none ∨ messages = some []) →
        getMessagesCore messages = .error "No messages found"
        ∧ getMessages messages = .error "Failed to retrieve messages")
      ∧ (∀ ms, messages = some ms → ms ≠ [] →
        getMessages messages = .ok (ms.map annotate)
        ∧ ∀ a ∈ ms.map annotate, a.humanTimeMs = a.msg.ts * 1000) := by
  intro messages
  constructor
  · rintro (rfl | rfl) <;> exact ⟨rfl, rfl⟩
  · rintro ms rfl hne
    have hlen : ¬ms.length = 0 := fun h => hne (List.length_eq_zero.mp h)
    constructor
    · simp [getMessages, getMessagesCore, hlen]
    · intro a ha
      rcases List.mem_map.mp ha with ⟨m, hm, rfl⟩
      rfl

/-- C9 witness: the empty case fails and a singleton history is annotated
with `ts * 1000`. -/
theorem getMessages_empty_and_derived_time_witness :
    getMessagesCore none = .error "No messages found"
    ∧ getMessages (some [⟨5, "hi"⟩]) = .ok [⟨⟨5, "hi"⟩, 5 * 1000⟩] := by
  refine ⟨((getMessages_empty_and_derived_time none).1 (Or.inl rfl)).1, ?_⟩
  have h := ((getMessages_empty_and_derived_time (some [⟨5, "hi"⟩])).2
    [⟨5, "hi"⟩] rfl (by simp)).1
  simpa [annotate] using h

/-- C1 counterexample: at a callback with an absent stored nonce, the
state-verifying handler aborts with a 400 `"Invalid state parameter"` body —
not a redirect carrying `auth_error=1&reason=state_mismatch` — while the
Mongo-backed callback performs no state verification at all and calls the
token endpoint anyway. -/
theorem callback_state_mismatch_counterexample :
    (callbackCookie "https://front" (some "S") none
        (.response ⟨true, some "tok", some ⟨"U1"⟩, some ⟨"T1"⟩, none⟩)).response
      = .badRequest "Invalid state parameter"
    ∧ (callbackCookie "https://front" (some "S") none
        (.response ⟨true, some "tok", some ⟨"U1"⟩, some ⟨"T1"⟩, none⟩)).response
      ≠ .redirect ("https://front" ++ "/?auth_error=1&reason=state_mismatch")
    ∧ (callbackCookie "https://front" (some "S") none
        (.response ⟨true, some "tok", some ⟨"U1"⟩, some ⟨"T1"⟩, none⟩)).remoteCalled = false
    ∧ (callbackMongo "https://front" (some "C") (some "S")
        (.response ⟨true, some "tok", some ⟨"U1"⟩, some ⟨"T1"⟩, none⟩) []).remoteCalled
      = true := by
  decide

/-- C1 (amended): when the stored nonce is absent or differs from the
presented `state`, the two state-verifying callbacks abort before any call to
the token endpoint and respond 400 `"Invalid state parameter"` (no redirect,
no cookie effects); the Mongo-backed callback performs no state verification —
its behaviour is independent of `state`. -/
theorem callback_state_mismatch_amended :
    ∀ (frontend : String) (code state storedState s₂ : Option String)
      (exchange : ExchangeOutcome) (store : List TokenRecord),
      (nonceRejects storedState state = true →
        callbackCookie frontend state storedState exchange
          = ⟨.badRequest "Invalid state parameter", false, none, false⟩
        ∧ callbackCookieV2 frontend state storedState exchange
          = ⟨.badRequest "Invalid state parameter", false, none, false⟩)
      ∧ callbackMongo frontend code state exchange store
          = callbackMongo frontend code s₂ exchange store := by
  intro frontend code state storedState s₂ exchange store
  refine ⟨fun h => ⟨?_, ?_⟩, rfl⟩
  · simp [callbackCookie, h]
  · simp [callbackCookieV2, h]

/-- C1 witness: the amended theorem at an absent stored nonce. -/
theorem callback_state_mismatch_amended_witness :
    callbackCookie "F" (some "S") none (.response ⟨false, none, none, none, none⟩)
      = ⟨.badRequest "Invalid state parameter", false, none, false⟩ :=
  ((callback_state_mismatch_amended "F" (some "C") (some "S") none none
    (.response ⟨false, none, none, none, none⟩) []).1 (by decide)).1

/-- C2 counterexample: the second `src/index.js` callback treats an exchange
response with `ok: false` and no access token as success — it redirects with
`auth_success=1` and writes the coerced missing token (`"undefined"`) to the
side-channel cookie. -/
theorem exchange_validation_counterexample :
    (callbackCookieV2 "F" (some "s") (some "s")
        (.response ⟨false, none, none, none, some "invalid_code"⟩)).accessCookieSet
      = some "undefined"
    ∧ (callbackCookieV2 "F" (some "s") (some "s")
        (.response ⟨false, none, none, none, some "invalid_code"⟩)).response
      = .redirect ("F" ++ "/?auth_success=1") := by
  decide

/-- C2 (amended): the Mongo-backed callback treats the exchange result as
success only when it indicates success and carries a non-empty access token,
an authed-user identifier and a team identifier; otherwise it redirects with
`auth_error=invalid_response` and leaves the store untouched (this handler
writes no cookies at all).  The cookie-based variants validate less: the
second `src/index.js` callback accepts any transport-successful response and
writes the access-token cookie unconditionally. -/
theorem exchange_validation_amended :
    ∀ (frontend : String) (code state : Option String) (d : OAuthResponseData)
      (store : List TokenRecord),
      truthyS code = true →
      (validExchangeData d = false →
        callbackMongo frontend code state (.response d) store
          = ⟨frontend ++ "/?auth_error=invalid_response", true, store⟩)
      ∧ (validExchangeData d = true →
        ∃ tok au tm,
          d.access_token = some tok ∧ d.authed_user = some au ∧ d.team = some tm
          ∧ tok ≠ ""
          ∧ callbackMongo frontend code state (.response d) store
            = ⟨frontend ++ "/?auth_success=1&user_id=" ++ au.id, true,
                putToken store au.id tm.id tok⟩) := by
  intro frontend code state d store hc
  rcases d with ⟨ok, atok, auser, tm, err⟩
  constructor
  · intro hv
    cases atok with
    | none => simp [callbackMongo, hc]
    | some tok =>
      cases auser with
      | none => simp [callbackMongo, hc]
      | some au =>
        cases tm with
        | none => simp [callbackMongo, hc]
        | some t =>
          have : (ok && !tok.isEmpty) = false := by
            simpa [validExchangeData, truthyS] using hv
          simp [callbackMongo, hc, this]
  · intro hv
    cases atok with
    | none => simp [validExchangeData, truthyS] at hv
    | some tok =>
      cases auser with
      | none => simp [validExchangeData, truthyS] at hv
      | some au =>
        cases tm with
        | none => simp [validExchangeData, truthyS] at hv
        | some t =>
          have hok : ok = true ∧ tok.isEmpty = false := by
            simpa [validExchangeData, truthyS, Bool.and_eq_true] using hv
          have hne : tok ≠ "" := by
            intro h
            subst h
            exact absurd hok.2 (by decide)
          refine ⟨tok, au, t, rfl, rfl, rfl, hne, ?_⟩
          simp [callbackMongo, hc, hok.1, hok.2]

/-- C2 witness: the amended theorem at an invalid exchange response. -/
theorem exchange_validation_amended_witness :
    callbackMongo "F" (some "C") none (.response ⟨false, none, none, none, none⟩) []
      = ⟨"F" ++ "/?auth_error=invalid_response", true, []⟩ :=
  (exchange_validation_amended "F" (some "C") none
    ⟨false, none, none, none, none⟩ [] (by decide)).1 (by decide)

/-- C5 counterexample: the stored nonce is not consumed on every verification:
a failed verification (absent stored nonce) leaves the state cookie in place,
and even a successful verification followed by a failed exchange leaves it in
place — it is cleared only on the fully successful path. -/
theorem nonce_consumption_counterexample :
    (callbackCookie "F" (some "S") none
        (.response ⟨true, some "tok", none, none, none⟩)).stateCookieCleared = false
    ∧ nonceRejects none (some "S") = true
    ∧ (callbackCookie "F" (some "S") (some "S")
        (.transportFailure none)).stateCookieCleared = false
    ∧ nonceRejects (some "S") (some "S") = false := by
  decide

/-- C5 (amended): the `unnamed/part_000` callback clears the state-nonce
cookie exactly when verification succeeds and the exchange returns an
`ok: true` response (the fully successful path); on verification failure or
exchange failure the nonce survives.  The second `src/index.js` callback
never clears it. -/
theorem nonce_consumption_amended :
    ∀ (frontend : String) (state storedState : Option String) (exchange : ExchangeOutcome),
      ((callbackCookie frontend state storedState exchange).stateCookieCleared = true
        ↔ nonceRejects storedState state = false
          ∧ ∃ d, exchange = .response d ∧ d.ok = true)
      ∧ (callbackCookieV2 frontend state storedState exchange).stateCookieCleared = false := by
  intro frontend state storedState exchange
  constructor
  · cases hn : nonceRejects storedState state with
    | true => simp [callbackCookie, hn]
    | false =>
      cases exchange with
      | response d =>
        cases hok : d.ok with
        | true => simp [callbackCookie, hn, hok]
        | false => simp [callbackCookie, hn, hok]
      | transportFailure e => simp [callbackCookie, hn]
  · cases hn : nonceRejects storedState state with
    | true => simp [callbackCookieV2, hn]
    | false => cases exchange <;> simp [callbackCookieV2, hn]

/-- Helper: the Mongo-backed `/auth/status` handler never mutates the
credential store, in any branch. -/
theorem authStatusMongo_preserves_store :
    ∀ (u : Option String) (store : List TokenRecord)
      (identity : Except String AuthTestData) (profile : Except String SlackProfile),
      (authStatusMongo u store identity profile).store = store := by
  intro u store identity profile
  cases u with
  | none => rfl
  | some s =>
    simp only [authStatusMongo]
    split
    · rfl
    · split
      · rfl
      · split
        · rfl
        · split
          · rfl
          · split
            · rfl
            · split
              · rfl
              · rfl

/-- C7 counterexample: in the Mongo-backed `/auth/status`, a failed remote
identity check (a thrown `auth.test`) responds unauthenticated with a 500
but clears nothing — the stored credential survives — so an identical
subsequent request performs the remote round trip again instead of
short-circuiting. -/
theorem introspection_invalidation_counterexample :
    (authStatusMongo (some "U1") [⟨"U1", "T1", "xoxp-1"⟩]
        (.error "invalid_auth") (.ok ⟨none, "n", none, none⟩)).remoteCalled = true
    ∧ (authStatusMongo (some "U1") [⟨"U1", "T1", "xoxp-1"⟩]
        (.error "invalid_auth") (.ok ⟨none, "n", none, none⟩)).status = 500
    ∧ bodyAuthenticatedFlag (authStatusMongo (some "U1") [⟨"U1", "T1", "xoxp-1"⟩]
        (.error "invalid_auth") (.ok ⟨none, "n", none, none⟩)).body = false
    ∧ (authStatusMongo (some "U1") [⟨"U1", "T1", "xoxp-1"⟩]
        (.error "invalid_auth") (.ok ⟨none, "n", none, none⟩)).store
      = [⟨"U1", "T1", "xoxp-1"⟩]
    ∧ (authStatusMongo (some "U1")
        (authStatusMongo (some "U1") [⟨"U1", "T1", "xoxp-1"⟩]
          (.error "invalid_auth") (.ok ⟨none, "n", none, none⟩)).store
        (.error "invalid_auth") (.ok ⟨none, "n", none, none⟩)).remoteCalled = true := by
  decide

/-- C7 (amended): in the cookie-based status handlers, a failed remote
identity check clears the side-channel token cookie and responds
unauthenticated, and a follow-up request carrying no cookie short-circuits
with no remote call; the Mongo-backed handler, by contrast, never mutates the
stored credential, so its remote check is repeated. -/
theorem introspection_invalidation_amended :
    ∀ (c : Option String) (identity : Except String AuthTestData)
      (profile : Except String SlackProfile) (msg : String)
      (u : Option String) (store : List TokenRecord),
      truthyS c = true → identity = .error msg →
      ((authStatusCookie c identity profile).clearedAccessCookie = true
        ∧ (authStatusCookie c identity profile).body = .unauthenticated
        ∧ (authStatusCookie c identity profile).remoteCalled = true
        ∧ (authStatusCookieV2 c identity).clearedAccessCookie = true
        ∧ (authStatusCookieV2 c identity).body = .unauthenticated
        ∧ (authStatusCookie none identity profile).remoteCalled = false
        ∧ (authStatusCookieV2 none identity).remoteCalled = false)
      ∧ (authStatusMongo u store identity profile).store = store := by
  intro c identity profile msg u store hc hid
  subst hid
  refine ⟨⟨?_, ?_, ?_, ?_, ?_, ?_, ?_⟩, authStatusMongo_preserves_store u store _ profile⟩
  all_goals simp [authStatusCookie, authStatusCookieV2, hc,
    show truthyS none = false from rfl]

/-- C7 witness: the amended theorem at a present cookie and a thrown
identity check. -/
theorem introspection_invalidation_amended_witness :
    (authStatusCookie (some "tok") (.error "invalid_auth")
      (.ok ⟨none, "n", none, none⟩)).clearedAccessCookie = true :=
  ((introspection_invalidation_amended (some "tok") (.error "invalid_auth")
    (.ok ⟨none, "n", none, none⟩) "invalid_auth" none [] (by decide) rfl).1).1

/-- C8: a `/auth/status` request carrying no identifying credential is
answered unauthenticated with no remote identity check: the cookie-based
handlers return exactly `{authenticated: false}` when the side-channel cookie
is absent or empty, and the Mongo-backed handler returns a 400 unauthenticated
body when its identifying `userId` query parameter is absent or empty. -/
theorem status_no_credential_spec :
    ∀ (c userId : Option String) (identity : Except String AuthTestData)
      (profile : Except String SlackProfile) (store : List TokenRecord),
      truthyS c = false → truthyS userId = false →
      authStatusCookie c identity profile = ⟨.unauthenticated, false, false⟩
      ∧ authStatusCookieV2 c identity = ⟨.unauthenticated, false, false⟩
      ∧ (authStatusMongo userId store identity profile).remoteCalled = false
      ∧ (authStatusMongo userId store identity profile).status = 400
      ∧ bodyAuthenticatedFlag (authStatusMongo userId store identity profile).body = false := by
  intro c userId identity profile store hc hu
  refine ⟨?_, ?_, ?_, ?_, ?_⟩
  · simp [authStatusCookie, hc]
  · simp [authStatusCookieV2, hc]
  all_goals
    cases userId with
    | none => rfl
    | some s =>
      have hs : s.isEmpty = true := by simpa [truthyS] using hu
      simp [authStatusMongo, hs, bodyAuthenticatedFlag]

/-- C8 witness: an entirely anonymous status request. -/
theorem status_no_credential_spec_witness :
    authStatusCookie none (.error "e") (.error "e2") = ⟨.unauthenticated, false, false⟩ :=
  (status_no_credential_spec none none (.error "e") (.error "e2") []
    (by decide) (by decide)).1
